import Mathlib

/-!
Shallow embedding of the tool-call orchestration core of an educational
MCP (Model Context Protocol) demo, and proofs about it.

Embedded sources:
* `mock_data.py` — mock calendar data, availability check, meeting booking;
* `mcp_server.py` — the JSON-RPC tool host (`MCPServer.handle_request`,
  `_handle_call_tool`, `_handle_list_tools`, `_create_error_response`, the
  stdin line loop of `main`);
* `interactive_chat.py` / `telegram_bot.py` — the orchestration loop
  (`handle_question`, `handle_tool_calls` / `handle_tool_calls_response`)
  and the per-user conversation store (`add_to_conversation`);
* `demo_debug_mode.py` / `debug_llm_response.py` — the inline
  `[TOOL_CALL:name:args]` marker extraction
  (`re.findall(r'\[TOOL_CALL:([^:]+):([^\]]+)\]', text)`).

Machine integers do not occur; Python ints are modelled as `Nat` (all the
arithmetic here is on small non-negative quantities).  External effects
(the Ollama HTTP endpoint, the MCP stdio transport) are modelled as
oracles / pre-parsed streams, which is the standard shallow embedding of
an external boundary.
-/

/-! ## mock_data.py -/

/-- Decimal value of a digit string, as Python `int(...)` computes it on the
all-digit strings that occur here. -/
def digitsVal (l : List Char) : Nat :=
  l.foldl (fun acc c => acc * 10 + (c.toNat - 48)) 0

/-- `int(time.replace(":", ""))` from `check_time_slot_availability`:
read the digits of an `"HH:MM"` string as one decimal number
(`"10:30" ↦ 1030`). -/
def timeToInt (time : String) : Nat :=
  digitsVal (time.toList.filter (fun c => c != ':'))

/-- Single-character `str.split`, used for `slot.split("-")` and (in the
specification-side reading) `time.split(":")`. -/
def splitOnChar (sep : Char) : List Char → List (List Char)
  | [] => [[]]
  | c :: cs =>
    if c = sep then [] :: splitOnChar sep cs
    else
      match splitOnChar sep cs with
      | [] => [[c]]
      | h :: t => (c :: h) :: t

/-- `MOCK_CALENDAR` from `mock_data.py`: busy entries (time, duration, title)
per date. -/
def MOCK_CALENDAR : List (String × List (String × Nat × String)) :=
  [("2024-01-15", [("09:00", 60, "Занято - Планерка команды"),
                   ("14:00", 30, "Занято - 1:1 с менеджером")]),
   ("2024-01-16", [("10:00", 120, "Занято - Разработка")]),
   ("2024-01-17", []),
   ("2024-01-18", [("15:00", 60, "Занято - Код-ревью")]),
   ("2024-01-19", [])]

/-- `AVAILABLE_SLOTS` from `mock_data.py`: free ranges per date, in the
insertion order of the Python dict literal. -/
def AVAILABLE_SLOTS : List (String × List String) :=
  [("2024-01-15", ["10:00-12:00", "16:00-18:00"]),
   ("2024-01-16", ["09:00-10:00", "14:00-17:00"]),
   ("2024-01-17", ["09:00-18:00"]),
   ("2024-01-18", ["09:00-15:00", "16:00-18:00"]),
   ("2024-01-19", ["09:00-18:00"])]

/-- Body of the `for slot in available_slots` loop of
`check_time_slot_availability`: split `"HH:MM-HH:MM"` on `"-"` and test
`slot_start <= requested_start and requested_end <= slot_end`. -/
def slotContains (slot : String) (requestedStart requestedEnd : Nat) : Bool :=
  match splitOnChar '-' slot.toList with
  | [startTime, endTime] =>
    decide (digitsVal (startTime.filter (fun c => c != ':')) ≤ requestedStart) &&
    decide (requestedEnd ≤ digitsVal (endTime.filter (fun c => c != ':')))
  | _ => false

/-- `check_time_slot_availability(date, time, duration)` from `mock_data.py`.
The module-global `AVAILABLE_SLOTS` table the Python body reads is passed
explicitly (state-passing embedding of the module global). -/
def check_time_slot_availability (slots : List (String × List String))
    (date time : String) (duration : Nat) : Bool :=
  match slots.lookup date with
  | none => false
  | some available_slots =>
    available_slots.any (fun slot =>
      slotContains slot (timeToInt time) (timeToInt time + duration / 60 * 100))

/-- The two result dictionaries `book_meeting` can return
(`success:true` with `message`/`meeting_id`, or `success:false` with
`message`/`available_alternatives`). -/
inductive BookResult where
  | booked (message : String) (meeting_id : String)
  | rejected (message : String) (available_alternatives : List String)
  deriving DecidableEq

/-- The `"success"` field of a `book_meeting` result dictionary. -/
def BookResult.success : BookResult → Bool
  | .booked .. => true
  | .rejected .. => false

/-- `f"meeting_{date}_{time}".replace(":", "").replace("-", "")`. -/
def meetingId (date time : String) : String :=
  (("meeting_" ++ date ++ "_" ++ time).toList.filter
    (fun c => c != ':' && c != '-')).asString

/-- `book_meeting(date, time, title, duration)` from `mock_data.py`.  The
failure branch returns `AVAILABLE_SLOTS.get(date, [])` as alternatives. -/
def book_meeting (slots : List (String × List String))
    (date time title : String) (duration : Nat) : BookResult :=
  if check_time_slot_availability slots date time duration then
    .booked ("Встреча \x27" ++ title ++ "\x27 успешно запланирована на " ++
        date ++ " в " ++ time)
      (meetingId date time)
  else
    .rejected ("Временной слот " ++ date ++ " в " ++ time ++ " недоступен")
      ((slots.lookup date).getD [])

/-! Specification-side reading of a booking interval, for comparison with the
code: minutes after midnight, so that `[time, time + duration)` is the real
requested interval. -/

/-- Minutes after midnight of an `"HH:MM"` string (specification-side; the
code instead reads the digits as one 4-digit number). -/
def timeToMinutes (time : String) : Nat :=
  match splitOnChar ':' time.toList with
  | [h, m] => digitsVal h * 60 + digitsVal m
  | _ => 0

/-- Specification-side containment: the real interval
`[time, time + duration)` (in minutes) lies inside the `"HH:MM-HH:MM"`
range `slot`. -/
def intervalWithinRange (slot : String) (time : String) (duration : Nat) : Bool :=
  match splitOnChar '-' slot.toList with
  | [startTime, endTime] =>
    decide (timeToMinutes startTime.asString ≤ timeToMinutes time) &&
    decide (timeToMinutes time + duration ≤ timeToMinutes endTime.asString)
  | _ => false

/-! ## Booking as a state transformer (frame property of `book_meeting`) -/

/-- The two module globals of `mock_data.py` that a booking could
conceivably write to. -/
structure CalendarState where
  available_slots : List (String × List String)
  mock_calendar : List (String × List (String × Nat × String))
  deriving DecidableEq

/-- The state of `mock_data.py` at process start. -/
def initialCalendarState : CalendarState :=
  { available_slots := AVAILABLE_SLOTS, mock_calendar := MOCK_CALENDAR }

/-- One booking request as received by the `schedule_meeting` tool. -/
structure BookingRequest where
  date : String
  time : String
  title : String
  duration : Nat
  deriving DecidableEq

/-- `book_meeting` as a state transformer over the module globals: the Python
body only reads `AVAILABLE_SLOTS` and assigns nothing (its comment notes a
real application would write to a database here), so the state component is
returned unchanged. -/
def book_meeting_step (st : CalendarState) (r : BookingRequest) :
    BookResult × CalendarState :=
  (book_meeting st.available_slots r.date r.time r.title r.duration, st)

/-- Run a sequence of booking requests, threading the calendar state. -/
def runBookings (st : CalendarState) :
    List BookingRequest → List BookResult × CalendarState
  | [] => ([], st)
  | r :: rs =>
    let p := book_meeting_step st r
    let q := runBookings p.2 rs
    (p.1 :: q.1, q.2)

/-! ## telegram_bot.py — per-user conversation store -/

/-- One entry of a stored conversation (`{"role": ..., "content": ...}`). -/
structure ChatMessage where
  role : String
  content : String
  deriving DecidableEq

/-- `TelegramMCPBot.add_to_conversation` for one user: append the message to
the stored list, then, if the stored list now has more than 20 entries,
replace it by `conversation[-20:]` (the last 20). -/
def add_to_conversation (conversation : List ChatMessage) (m : ChatMessage) :
    List ChatMessage :=
  let c := conversation ++ [m]
  if 20 < c.length then c.drop (c.length - 20) else c

/-- The last `n` entries of a list (`l[-n:]` in Python). -/
def lastN (n : Nat) (l : List α) : List α := l.drop (l.length - n)

/-! ## mcp_server.py — the tool host -/

/-- A tool descriptor (`mcp_types.Tool`): `name`, `description`, and the
`inputSchema` represented by its `properties` keys and `required` list. -/
structure Tool where
  name : String
  description : String
  properties : List String
  required : List String
  deriving DecidableEq

/-- The dictionary form `tool.dict()` that `tools/list` serializes. -/
structure ToolDict where
  name : String
  description : String
  properties : List String
  required : List String
  deriving DecidableEq

/-- `Tool.dict()` (pydantic serialization of a descriptor). -/
def Tool.dict (t : Tool) : ToolDict :=
  { name := t.name, description := t.description,
    properties := t.properties, required := t.required }

/-- `self.tools` built in `MCPServer.__init__`, in source order. -/
def serverTools : List Tool :=
  [{ name := "list_tools",
     description := "Показать список всех доступных инструментов с описанием",
     properties := [], required := [] },
   { name := "get_available_slots",
     description := "Получить доступные временные слоты на текущую неделю",
     properties := [], required := [] },
   { name := "schedule_meeting",
     description := "Запланировать встречу на определенную дату и время",
     properties := ["date", "time", "title", "duration"],
     required := ["date", "time", "title"] },
   { name := "get_development_plan",
     description := "Получить индивидуальный план развития в компании",
     properties := [], required := [] },
   { name := "search_regulations",
     description := "Найти информацию по корпоративным регламентам",
     properties := ["query"], required := ["query"] }]

/-- The `arguments` dict of a `tools/call` request, with one optional slot per
key the tools read (`arguments.get(...)`); a missing key is `none`. -/
structure ToolArguments where
  date : Option String
  time : Option String
  title : Option String
  duration : Option Nat
  query : Option String
  deriving DecidableEq

/-- An empty `arguments` dict. -/
def emptyArguments : ToolArguments :=
  { date := none, time := none, title := none, duration := none, query := none }

/-- The structured payload a tool serializes into its single
`TextContent`; the `json.dumps` presentation layer is elided, the payload
data is kept. -/
inductive ToolContent where
  | listToolsInfo (tools : List (String × String × List String))
  | availableSlots (slots : List (String × List String))
  | scheduleMeeting (result : BookResult)
  | developmentPlan
  | searchRegulations (query : String)
  deriving DecidableEq

/-- `MCPServer._tool_schedule_meeting`: read the arguments
(`duration` defaulting to 60) and delegate to `book_meeting`.  A missing
string argument is passed through as `""` (the Python code would pass
`None`, which equally fails the `date in AVAILABLE_SLOTS` test). -/
def tool_schedule_meeting (a : ToolArguments) : ToolContent :=
  .scheduleMeeting (book_meeting AVAILABLE_SLOTS (a.date.getD "") (a.time.getD "")
    (a.title.getD "") (a.duration.getD 60))

/-- `MCPServer._tool_search_regulations` (`query` defaulting to `""`). -/
def tool_search_regulations (a : ToolArguments) : ToolContent :=
  .searchRegulations (a.query.getD "")

/-- `str(x)` of an optional string, `"None"` when absent, as Python
f-strings render it. -/
def optionStr : Option String → String
  | some s => s
  | none => "None"

/-- `MCPServer._handle_call_tool`: dispatch on the tool name; an unknown
name raises `ValueError(f"Unknown tool: {tool_name}")`, modelled as the
`.error` case. -/
def handle_call_tool (tool_name : Option String) (arguments : ToolArguments) :
    Except String ToolContent :=
  match tool_name with
  | some "list_tools" =>
    .ok (.listToolsInfo (serverTools.map fun t => (t.name, t.description, t.properties)))
  | some "get_available_slots" =>
    .ok (.availableSlots (AVAILABLE_SLOTS.filter (fun p => !p.2.isEmpty)))
  | some "schedule_meeting" => .ok (tool_schedule_meeting arguments)
  | some "get_development_plan" => .ok .developmentPlan
  | some "search_regulations" => .ok (tool_search_regulations arguments)
  | _ => .error ("Unknown tool: " ++ optionStr tool_name)

/-- A JSON-RPC id (`Union[str, int, None]` in `mcp_types.JSONRPCResponse`). -/
inductive RpcId where
  | num (n : Nat)
  | str (s : String)
  | null
  deriving DecidableEq

/-- The `error` member of a response (`{"code": ..., "message": ...}`). -/
structure RpcError where
  code : Int
  message : String
  deriving DecidableEq

/-- The `result` payloads `handle_request` can produce, one per method. -/
inductive RpcResult where
  | initializeResult (protocolVersion : String)
  | toolsList (tools : List ToolDict)
  | toolCall (content : ToolContent)
  | resourcesList
  | resourceRead (uri : String)
  | promptsList
  | promptGet (name : String)
  deriving DecidableEq

/-- A `JSONRPCResponse`: `id` plus either `result` or `error`. -/
structure RpcResponse where
  id : RpcId
  result : Option RpcResult
  error : Option RpcError
  deriving DecidableEq

/-- `MCPServer._create_error_response(request_id, code, message)`. -/
def create_error_response (request_id : RpcId) (code : Int) (message : String) :
    RpcResponse :=
  { id := request_id, result := none, error := some { code := code, message := message } }

/-- An incoming JSON-RPC request after `json.loads`: `method` and `id` via
`request.get(...)`, and the `params` members the handlers read
(`name` for `tools/call` and `prompts/get`, `arguments`, `uri`). -/
structure RpcRequest where
  method : Option String
  id : RpcId
  name : Option String
  arguments : ToolArguments
  uri : Option String
  deriving DecidableEq

/-- `MCPServer._handle_list_tools`: `[tool.dict() for tool in tools]`. -/
def handle_list_tools (tools : List Tool) : List ToolDict :=
  tools.map Tool.dict

/-- `MCPServer.handle_request`: dispatch on `method`; an unknown method
yields error `-32601`; an exception raised by a handler (unknown tool,
unknown resource URI, unknown prompt) is caught and converted to error
`-32603` with message `"Internal error: " + str(e)`. -/
def handle_request (req : RpcRequest) : RpcResponse :=
  match req.method with
  | some "initialize" =>
    { id := req.id, result := some (.initializeResult "2024-11-05"), error := none }
  | some "tools/list" =>
    { id := req.id, result := some (.toolsList (handle_list_tools serverTools)),
      error := none }
  | some "tools/call" =>
    match handle_call_tool req.name req.arguments with
    | .ok c => { id := req.id, result := some (.toolCall c), error := none }
    | .error e => create_error_response req.id (-32603) ("Internal error: " ++ e)
  | some "resources/list" =>
    { id := req.id, result := some .resourcesList, error := none }
  | some "resources/read" =>
    match req.uri with
    | some u =>
      if u == "company://calendar/slots" || u == "company://development/plan" ||
          u == "company://regulations/all" then
        { id := req.id, result := some (.resourceRead u), error := none }
      else
        create_error_response req.id (-32603) ("Internal error: Unknown resource URI: " ++ u)
    | none =>
      create_error_response req.id (-32603) "Internal error: Unknown resource URI: None"
  | some "prompts/list" =>
    { id := req.id, result := some .promptsList, error := none }
  | some "prompts/get" =>
    match req.name with
    | some n =>
      if n == "career_advice" || n == "meeting_agenda" then
        { id := req.id, result := some (.promptGet n), error := none }
      else
        create_error_response req.id (-32603) ("Internal error: Unknown prompt: " ++ n)
    | none =>
      create_error_response req.id (-32603) "Internal error: Unknown prompt: None"
  | m => create_error_response req.id (-32601) ("Method not found: " ++ optionStr m)

/-- One stdin line of the `main` loop after the `json.loads` attempt:
`.ok req` is a parsed request, `.error e` a line that is not valid JSON
(`e` the exception text). -/
def process_line (line : Except String RpcRequest) : RpcResponse :=
  match line with
  | .ok req => handle_request req
  | .error e => create_error_response .null (-32700) ("Parse error: " ++ e)

/-- The stdin request loop of `mcp_server.main`: answer every line in order;
neither a parse failure nor a handler error stops the loop. -/
def server_main_loop (lines : List (Except String RpcRequest)) : List RpcResponse :=
  lines.map process_line

/-! ## interactive_chat.py / telegram_bot.py — the orchestration loop

`InteractiveMCPChat.handle_question` / `handle_tool_calls` and the identical
`TelegramMCPBot.process_with_llm` / `handle_tool_calls_response`.  The Ollama
endpoint is an external boundary: it is modelled as a pre-decided stream of
responses (`pending`), each `chat_with_tools` call consuming one; the MCP
`call_tool` round trip is an oracle returning either
`result["content"][0]["text"]` or the text of a raised exception. -/

/-- `tool_call["function"]` of a structured Ollama tool call. -/
structure OllamaFunction where
  name : String
  arguments : ToolArguments
  deriving DecidableEq

/-- One element of an Ollama `tool_calls` list. -/
structure OllamaToolCall where
  function : OllamaFunction
  deriving DecidableEq

/-- One Ollama chat message; `tool_calls = []` models an absent key. -/
structure OllamaMessage where
  role : String
  content : String
  tool_calls : List OllamaToolCall
  deriving DecidableEq

/-- The outcome of `self.mcp_client.call_tool(name, args)` followed by
`result["content"][0]["text"]`: the result text, or the text of whatever
exception the attempt raised. -/
def CallToolOracle : Type :=
  String → ToolArguments → Except String String

/-- The body of one iteration of the `for tool_call in tool_calls` loop of
`handle_tool_calls` / `handle_tool_calls_response`: on success append
`{"role": "tool", "content": tool_result}`, on exception append the
synthetic error text instead. -/
def tool_result_message (callTool : CallToolOracle) (tc : OllamaToolCall) :
    OllamaMessage :=
  match callTool tc.function.name tc.function.arguments with
  | .ok tool_result => { role := "tool", content := tool_result, tool_calls := [] }
  | .error e =>
    { role := "tool",
      content := "Ошибка выполнения " ++ tc.function.name ++ ": " ++ e,
      tool_calls := [] }

/-- The `for tool_call in tool_calls` loop itself: execute the calls in the
order received, appending one tool-role message each to `messages`. -/
def exec_tool_calls (callTool : CallToolOracle) (messages : List OllamaMessage) :
    List OllamaToolCall → List OllamaMessage
  | [] => messages
  | tc :: rest =>
    exec_tool_calls callTool (messages ++ [tool_result_message callTool tc]) rest

/-- `OllamaIntegration.chat_with_tools(messages, tools)`: an HTTP round trip
to the model, modelled by popping the next pre-decided response from
`pending` (`.error` is the `{"error": ...}` shape, `.ok` the `"message"`).
An exhausted stream behaves like a transport failure. -/
def chat_with_tools (_messages : List OllamaMessage)
    (pending : List (Except String OllamaMessage)) :
    Except String OllamaMessage × List (Except String OllamaMessage) :=
  match pending with
  | [] => (.error "нет ответа", [])
  | r :: rest => (r, rest)

/-- `InteractiveMCPChat.handle_tool_calls(assistant_message, messages, tools)`
(= `TelegramMCPBot.handle_tool_calls_response`): append the assistant
message with its `tool_calls`, execute every call, then make exactly one
further `chat_with_tools` request and take that response's `content` as the
final answer (`none` models the early return on an `{"error": ...}`
response).  Returns the final answer and the unconsumed model responses. -/
def handle_tool_calls (callTool : CallToolOracle) (assistant_message : OllamaMessage)
    (messages : List OllamaMessage)
    (pending : List (Except String OllamaMessage)) :
    Option String × List (Except String OllamaMessage) :=
  let messages1 := messages ++
    [{ role := "assistant", content := assistant_message.content,
       tool_calls := assistant_message.tool_calls }]
  let messages2 := exec_tool_calls callTool messages1 assistant_message.tool_calls
  match chat_with_tools messages2 pending with
  | (.error _, rest) => (none, rest)
  | (.ok m, rest) => (some m.content, rest)

/-- The system prompt of `build_system_prompt` (content irrelevant to the
control flow; kept abstract). -/
def system_prompt : String :=
  "You are a helpful corporate assistant."

/-- Build the outbound message list of `handle_question` /
`process_with_llm`: the system prompt followed by the last 6 entries of the
history extended with the new user question. -/
def build_messages (history : List OllamaMessage) (question : String) :
    List OllamaMessage :=
  { role := "system", content := system_prompt, tool_calls := [] } ::
    lastN 6 (history ++ [{ role := "user", content := question, tool_calls := [] }])

/-- `InteractiveMCPChat.handle_question` (= `TelegramMCPBot.process_with_llm`):
one `chat_with_tools` request; if the response carries `tool_calls`,
delegate to `handle_tool_calls`, otherwise the response `content` is already
the final answer. -/
def handle_question (callTool : CallToolOracle) (history : List OllamaMessage)
    (question : String) (pending : List (Except String OllamaMessage)) :
    Option String × List (Except String OllamaMessage) :=
  let messages := build_messages history question
  match chat_with_tools messages pending with
  | (.error _, rest) => (none, rest)
  | (.ok assistant_message, rest) =>
    if assistant_message.tool_calls.isEmpty then (some assistant_message.content, rest)
    else handle_tool_calls callTool assistant_message messages rest

/-! ## demo_debug_mode.py / debug_llm_response.py — inline marker extraction

`re.findall(r'\[TOOL_CALL:([^:]+):([^\]]+)\]', text)`: scan left to right;
at a match emit the two capture groups and continue after the match,
otherwise advance one character.  Both capture groups are forced by the
pattern: `([^:]+)` is the maximal non-empty colon-free run (the following
literal `:` must then be present), `([^\]]+)` the maximal non-empty
bracket-free run (the following literal `]` must then be present). -/

/-- The literal opening of a marker, `[TOOL_CALL:`. -/
def markerHead : List Char :=
  ['[', 'T', 'O', 'O', 'L', '_', 'C', 'A', 'L', 'L', ':']

/-- Attempt the pattern at the head of the character list: the literal
opening `[TOOL_CALL:`, a non-empty colon-free name, `:`, a non-empty
`]`-free argument blob, `]`.  Returns the two captures and the rest. -/
def matchMarker (s : List Char) : Option ((String × String) × List Char) :=
  if markerHead.isPrefixOf s then
    match (s.drop markerHead.length).takeWhile (fun c => c != ':'),
          (s.drop markerHead.length).dropWhile (fun c => c != ':') with
    | nc :: ncs, ':' :: afterName =>
      match afterName.takeWhile (fun c => c != ']'),
            afterName.dropWhile (fun c => c != ']') with
      | ac :: acs, ']' :: remaining =>
        some (((nc :: ncs).asString, (ac :: acs).asString), remaining)
      | _, _ => none
    | _, _ => none
  else none

/-- The scan of `re.findall`, fuelled by the input length (every step
consumes at least one character). -/
def findMarkers : Nat → List Char → List (String × String)
  | 0, _ => []
  | _ + 1, [] => []
  | fuel + 1, c :: cs =>
    match matchMarker (c :: cs) with
    | some (tc, remaining) => tc :: findMarkers fuel remaining
    | none => findMarkers fuel cs

/-- `re.findall(tool_pattern, response)` from `demo_debug_mode.py` and
`debug_llm_response.py`: every `(name, argument-blob)` pair, left to
right. -/
def extractToolCalls (response : String) : List (String × String) :=
  findMarkers response.toList.length response.toList

/-- The character list of the exact marker text `[TOOL_CALL:<n>:<a>]`. -/
def markerChars (n a : List Char) : List Char :=
  markerHead ++ (n ++ ':' :: (a ++ [']']))

/-! ## Marker argument decoding (spec-modelled)

The decoding of a marker's argument blob into a `ToolCallRequest` argument
mapping happens in `InteractiveMCPChat.process_llm_response`, which is
invoked by `debug_llm_response.py` and `test_booking_error_handling.py` but
whose definition is not present in the source tree.  It is modelled here
from the specification's words: a JSON object blob decodes to its mapping;
an empty blob (`\x7b\x7d` or blank) means "no arguments"; a blob that fails
structured-JSON decoding degrades to an empty mapping instead of raising. -/

/-- A decoded JSON scalar (the marker blobs in this system only carry
string and integer values). -/
inductive JsonValue where
  | str (s : String)
  | num (n : Nat)
  deriving DecidableEq

/-- JSON whitespace. -/
def isJsonWs (c : Char) : Bool :=
  c == ' ' || c == '\t' || c == '\n' || c == '\r'

/-- Drop leading JSON whitespace. -/
def skipWs (l : List Char) : List Char := l.dropWhile isJsonWs

/-- Parse a double-quoted JSON string literal (escape sequences are not
needed by any blob in this system). -/
def parseJsonString : List Char → Option (String × List Char)
  | '"' :: rest =>
    match rest.dropWhile (fun c => c != '"') with
    | '"' :: remaining => some ((rest.takeWhile (fun c => c != '"')).asString, remaining)
    | _ => none
  | _ => none

/-- Parse a non-negative JSON integer. -/
def parseJsonNumber (l : List Char) : Option (Nat × List Char) :=
  match l.takeWhile Char.isDigit with
  | [] => none
  | d :: ds => some (digitsVal (d :: ds), l.dropWhile Char.isDigit)

/-- Parse one JSON scalar value. -/
def parseJsonValue (l : List Char) : Option (JsonValue × List Char) :=
  match parseJsonString l with
  | some (s, r) => some (.str s, r)
  | none =>
    match parseJsonNumber l with
    | some (n, r) => some (.num n, r)
    | none => none

/-- Parse a non-empty comma-separated list of `"key": value` members. -/
def parseJsonMembers : Nat → List Char → Option (List (String × JsonValue) × List Char)
  | 0, _ => none
  | fuel + 1, l =>
    match parseJsonString (skipWs l) with
    | none => none
    | some (key, r1) =>
      match skipWs r1 with
      | ':' :: r2 =>
        match parseJsonValue (skipWs r2) with
        | none => none
        | some (v, r3) =>
          match skipWs r3 with
          | ',' :: r4 =>
            match parseJsonMembers fuel r4 with
            | some (rest, r5) => some ((key, v) :: rest, r5)
            | none => none
          | r4 => some ([(key, v)], r4)
      | _ => none

/-- Parse a whole flat JSON object, requiring the input to be exhausted. -/
def parseJsonObject (blob : String) : Option (List (String × JsonValue)) :=
  match skipWs blob.toList with
  | '{' :: r1 =>
    match skipWs r1 with
    | '}' :: r2 => if (skipWs r2).isEmpty then some [] else none
    | r2 =>
      match parseJsonMembers blob.toList.length r2 with
      | some (members, r3) =>
        match skipWs r3 with
        | '}' :: r4 => if (skipWs r4).isEmpty then some members else none
        | _ => none
      | none => none
  | _ => none

/-- Modelled from the spec: the decoding of a marker-style argument blob
into the `arguments` mapping of a ToolCallRequest — the defining code
(`InteractiveMCPChat.process_llm_response`) is missing from the source
tree.  Per the spec an empty blob means "no arguments" and a blob that
fails structured-JSON decoding degrades to an empty mapping rather than
aborting the response. -/
def decodeMarkerArguments (blob : String) : List (String × JsonValue) :=
  (parseJsonObject blob).getD []

/-! ## Helper lemmas -/

/-- `takeWhile`/`dropWhile` split exactly at the first character failing the
predicate. -/
theorem takeWhile_append_cons (p : Char → Bool) (xs : List Char) (y : Char)
    (ys : List Char) (hx : ∀ x ∈ xs, p x = true) (hy : p y = false) :
    (xs ++ y :: ys).takeWhile p = xs ∧ (xs ++ y :: ys).dropWhile p = y :: ys := by
  induction xs with
  | nil => simp [List.takeWhile_cons, List.dropWhile_cons, hy]
  | cons x xs ih =>
    have hpx : p x = true := hx x (List.mem_cons_self x xs)
    have ih' := ih (fun z hz => hx z (List.mem_cons_of_mem x hz))
    simp [List.takeWhile_cons, List.dropWhile_cons, hpx, ih'.1, ih'.2]

/-- The pattern matches a well-formed marker at the head of the input and
captures exactly its name and argument blob. -/
theorem matchMarker_markerChars (n a rest : List Char) (hn : n ≠ [])
    (hnc : ∀ c ∈ n, c ≠ ':') (ha : a ≠ []) (hac : ∀ c ∈ a, c ≠ ']') :
    matchMarker (markerChars n a ++ rest) = some ((n.asString, a.asString), rest) := by
  obtain ⟨nc, ncs, rfl⟩ := List.exists_cons_of_ne_nil hn
  obtain ⟨ac, acs, rfl⟩ := List.exists_cons_of_ne_nil ha
  have hpre : markerHead.isPrefixOf (markerChars (nc :: ncs) (ac :: acs) ++ rest) = true := by
    rw [List.isPrefixOf_iff_prefix, markerChars, List.append_assoc]
    exact List.prefix_append _ _
  have hdrop : (markerChars (nc :: ncs) (ac :: acs) ++ rest).drop markerHead.length =
      (nc :: ncs) ++ ':' :: ((ac :: acs) ++ ']' :: rest) := by
    rw [markerChars, List.append_assoc, List.drop_left]
    simp
  have h1 := takeWhile_append_cons (fun c => c != ':') (nc :: ncs) ':'
    ((ac :: acs) ++ ']' :: rest)
    (fun x hx => by simpa using hnc x hx) (by simp)
  have h2 := takeWhile_append_cons (fun c => c != ']') (ac :: acs) ']' rest
    (fun x hx => by simpa using hac x hx) (by simp)
  unfold matchMarker
  rw [if_pos hpre, hdrop]
  simp only [h1.1, h1.2, h2.1, h2.2]

/-- The scan returns nothing on an empty input, whatever the fuel. -/
theorem findMarkers_nil (fuel : Nat) : findMarkers fuel [] = [] := by
  cases fuel <;> rfl

/-- One scan step at a successful match emits the captures and continues
after the match. -/
theorem findMarkers_cons_of_match (fuel : Nat) (c : Char) (cs : List Char)
    (tc : String × String) (rem : List Char)
    (h : matchMarker (c :: cs) = some (tc, rem)) :
    findMarkers (fuel + 1) (c :: cs) = tc :: findMarkers fuel rem := by
  simp only [findMarkers, h]

/-- One scan step over a well-formed marker emits its captures and continues
after the marker. -/
theorem findMarkers_marker (fuel : Nat) (n a rest : List Char) (hn : n ≠ [])
    (hnc : ∀ c ∈ n, c ≠ ':') (ha : a ≠ []) (hac : ∀ c ∈ a, c ≠ ']') :
    findMarkers (fuel + 1) (markerChars n a ++ rest) =
      (n.asString, a.asString) :: findMarkers fuel rest := by
  have hm := matchMarker_markerChars n a rest hn hnc ha hac
  have hshape : markerChars n a ++ rest =
      '[' :: ('T' :: 'O' :: 'O' :: 'L' :: '_' :: 'C' :: 'A' :: 'L' :: 'L' :: ':' ::
        (n ++ ':' :: (a ++ ']' :: rest))) := by
    simp [markerChars, markerHead]
  rw [hshape] at hm ⊢
  exact findMarkers_cons_of_match fuel _ _ _ _ hm

/-- A marker is at least 13 characters long. -/
theorem markerChars_length_ge (n a : List Char) : 13 ≤ (markerChars n a).length := by
  simp [markerChars, markerHead]
  omega

/-- Every message appended by the tool-call loop body has role `"tool"`,
whether the call succeeded or failed. -/
theorem tool_result_message_role (f : CallToolOracle) (tc : OllamaToolCall) :
    (tool_result_message f tc).role = "tool" := by
  cases hf : f tc.function.name tc.function.arguments <;>
    simp [tool_result_message, hf]

/-- The tool-call loop appends exactly one result message per call, in call
order. -/
theorem exec_tool_calls_eq (f : CallToolOracle) (messages : List OllamaMessage)
    (tcs : List OllamaToolCall) :
    exec_tool_calls f messages tcs = messages ++ tcs.map (tool_result_message f) := by
  induction tcs generalizing messages with
  | nil => simp [exec_tool_calls]
  | cons tc rest ih => simp [exec_tool_calls, ih]

/-- The roles of the batch's appended messages are all `"tool"`. -/
theorem tool_result_roles (f : CallToolOracle) (tcs : List OllamaToolCall) :
    (tcs.map (tool_result_message f)).map OllamaMessage.role =
      List.replicate tcs.length "tool" := by
  induction tcs with
  | nil => rfl
  | cons tc rest ih => simp [tool_result_message_role, ih, List.replicate_succ]

/-- One `add_to_conversation` step preserves the "stored history is the last
20 appended messages" invariant. -/
theorem add_to_conversation_lastN (ms : List ChatMessage) (m : ChatMessage) :
    add_to_conversation (lastN 20 ms) m = lastN 20 (ms ++ [m]) := by
  unfold add_to_conversation lastN
  rcases Nat.lt_or_ge ms.length 20 with hlt | hge
  · have h0 : ms.length - 20 = 0 := by omega
    have h0' : (ms ++ [m]).length - 20 = 0 := by
      rw [List.length_append]; simp; omega
    rw [h0, h0', List.drop_zero, List.drop_zero]
    rw [if_neg]
    rw [List.length_append]
    simp
    omega
  · have hlen : (ms.drop (ms.length - 20)).length = 20 := by
      rw [List.length_drop]; omega
    have hcond : 20 < (ms.drop (ms.length - 20) ++ [m]).length := by
      rw [List.length_append, hlen]; simp
    rw [if_pos hcond]
    rw [List.length_append, hlen]
    have h1 : 20 + [m].length - 20 = 1 := by simp
    rw [h1]
    rw [List.drop_append_of_le_length (by omega : 1 ≤ (ms.drop (ms.length - 20)).length)]
    rw [List.drop_drop]
    have h2 : (ms ++ [m]).length - 20 ≤ ms.length := by
      simp only [List.length_append, List.length_singleton]; omega
    rw [List.drop_append_of_le_length h2]
    have h3 : (ms ++ [m]).length - 20 = ms.length - 20 + 1 := by
      simp only [List.length_append, List.length_singleton]; omega
    rw [h3]

/-! ## Claim theorems -/

/-- C1: the orchestration loop (`InteractiveMCPChat.handle_tool_calls`,
`TelegramMCPBot.handle_tool_calls_response`) invokes a batch of tool calls
sequentially in the order received; a call whose execution raises does not
abort the batch (its result is replaced by the synthetic error message built
into `tool_result_message`); after the batch exactly one tool-role message
per call has been appended to the message list, in the order of the calls —
the loop result is `messages ++ tool_calls.map (tool_result_message callTool)`
for every outcome oracle `callTool`, including failing ones. -/
theorem C1_tool_batch_order :
    ∀ (callTool : CallToolOracle) (messages : List OllamaMessage)
      (tool_calls : List OllamaToolCall),
      exec_tool_calls callTool messages tool_calls =
        messages ++ tool_calls.map (tool_result_message callTool) ∧
      (tool_calls.map (tool_result_message callTool)).map OllamaMessage.role =
        List.replicate tool_calls.length "tool" ∧
      (exec_tool_calls callTool messages tool_calls).length =
        messages.length + tool_calls.length := by
  intro callTool messages tool_calls
  refine ⟨exec_tool_calls_eq callTool messages tool_calls,
    tool_result_roles callTool tool_calls, ?_⟩
  rw [exec_tool_calls_eq, List.length_append, List.length_map]

/-- C2: the inline marker extraction of `demo_debug_mode.py` /
`debug_llm_response.py` yields one request per marker: the input
`[TOOL_CALL:get_x:\x7b\x7d]` yields exactly the single capture
`("get_x", "\x7b\x7d")` whose blob decodes to the empty argument mapping,
and any two adjacent well-formed markers (colon-free non-empty name,
`]`-free non-empty blob) yield exactly their two captures in left-to-right
textual order, with no merging. -/
theorem C2_marker_extraction :
    (extractToolCalls "[TOOL_CALL:get_x:\x7b\x7d]" = [("get_x", "\x7b\x7d")] ∧
      decodeMarkerArguments "\x7b\x7d" = []) ∧
    (∀ n1 a1 n2 a2 : List Char,
      n1 ≠ [] → (∀ c ∈ n1, c ≠ ':') → a1 ≠ [] → (∀ c ∈ a1, c ≠ ']') →
      n2 ≠ [] → (∀ c ∈ n2, c ≠ ':') → a2 ≠ [] → (∀ c ∈ a2, c ≠ ']') →
      extractToolCalls (String.mk (markerChars n1 a1 ++ markerChars n2 a2)) =
        [(n1.asString, a1.asString), (n2.asString, a2.asString)]) := by
  refine ⟨⟨by decide, by decide⟩, ?_⟩
  intro n1 a1 n2 a2 hn1 hnc1 ha1 hac1 hn2 hnc2 ha2 hac2
  show findMarkers (markerChars n1 a1 ++ markerChars n2 a2).length
      (markerChars n1 a1 ++ markerChars n2 a2) = _
  have hfuel : (markerChars n1 a1 ++ markerChars n2 a2).length =
      (markerChars n1 a1 ++ markerChars n2 a2).length - 2 + 1 + 1 := by
    have g1 := markerChars_length_ge n1 a1
    have g2 := markerChars_length_ge n2 a2
    rw [List.length_append]
    omega
  rw [hfuel, findMarkers_marker _ n1 a1 _ hn1 hnc1 ha1 hac1]
  rw [show markerChars n2 a2 = markerChars n2 a2 ++ [] from (List.append_nil _).symm]
  rw [findMarkers_marker _ n2 a2 [] hn2 hnc2 ha2 hac2]
  rw [findMarkers_nil]

/-- C2 witness: the general adjacent-marker clause at the concrete input
`[TOOL_CALL:get_x:\x7b\x7d][TOOL_CALL:get_y:\x7b\x7d]`. -/
theorem C2_marker_extraction_witness :
    extractToolCalls (String.mk (markerChars "get_x".toList "\x7b\x7d".toList ++
        markerChars "get_y".toList "\x7b\x7d".toList)) =
      [("get_x".toList.asString, "\x7b\x7d".toList.asString),
       ("get_y".toList.asString, "\x7b\x7d".toList.asString)] :=
  C2_marker_extraction.2 "get_x".toList "\x7b\x7d".toList "get_y".toList "\x7b\x7d".toList
    (by decide) (by decide) (by decide) (by decide)
    (by decide) (by decide) (by decide) (by decide)

/-- C3 counterexample: the extraction pattern requires a non-empty argument
blob, so a marker whose blob is blank yields no ToolCallRequest at all —
not a request with empty arguments as the claim states — while extraction
still continues with the rest of the response. -/
theorem C3_blank_blob_counterexample :
    extractToolCalls "[TOOL_CALL:get_x:]" = [] ∧
    extractToolCalls "[TOOL_CALL:get_x:][TOOL_CALL:get_y:\x7b\x7d]" =
      [("get_y", "\x7b\x7d")] := by
  exact ⟨by decide, by decide⟩

/-- C3 (amended): for every marker-style tool call whose argument blob is
`\x7b\x7d`, whitespace-only, or not valid JSON, the decoding step produces an
empty argument mapping rather than a parse failure; a marker whose blob is
completely empty is not matched by the extraction pattern and yields no
call, with extraction continuing over the rest of the response. -/
theorem C3_marker_arguments_decoding :
    decodeMarkerArguments "\x7b\x7d" = [] ∧
    decodeMarkerArguments " " = [] ∧
    decodeMarkerArguments "not json" = [] ∧
    (∀ blob : String, parseJsonObject blob = none → decodeMarkerArguments blob = []) ∧
    (extractToolCalls "[TOOL_CALL:get_x:\x7b\x7d]").map
        (fun tc => (tc.1, decodeMarkerArguments tc.2)) = [("get_x", [])] := by
  refine ⟨by decide, by decide, by decide, ?_, by decide⟩
  intro blob h
  simp [decodeMarkerArguments, h]

/-- C3 witness: the JSON-failure clause at the concrete blob `"oops"`. -/
theorem C3_marker_arguments_decoding_witness :
    decodeMarkerArguments "oops" = [] :=
  C3_marker_arguments_decoding.2.2.2.1 "oops" (by decide)

/-- C4: when the first model response carries tool calls, the orchestration
(`handle_question` with `handle_tool_calls`) consumes exactly one further
model response after appending the tool results — the returned stream
remainder is exactly `rest` — and takes whatever text content that second
response carries as the final answer, for every second response `m`,
including one that again requests tool calls: no third response is ever
consumed. -/
theorem C4_single_followup_call :
    ∀ (callTool : CallToolOracle) (history : List OllamaMessage) (question : String)
      (am m : OllamaMessage) (rest : List (Except String OllamaMessage)),
      am.tool_calls ≠ [] →
      handle_question callTool history question (.ok am :: .ok m :: rest) =
        (some m.content, rest) := by
  intro callTool history question am m rest h
  unfold handle_question chat_with_tools
  have hne : am.tool_calls.isEmpty = false := by
    cases hc : am.tool_calls with
    | nil => exact absurd hc h
    | cons x xs => rfl
  simp only [hne]
  unfold handle_tool_calls chat_with_tools
  rfl

/-- C4 witness: a concrete two-response stream whose second response itself
requests another tool call. -/
theorem C4_single_followup_call_witness :
    handle_question (fun _ _ => .ok "\x7b\x7d") [] "Покажи слоты"
      [.ok { role := "assistant", content := "",
             tool_calls := [{ function := { name := "get_available_slots",
                                            arguments := emptyArguments } }] },
       .ok { role := "assistant", content := "Свободные слоты найдены",
             tool_calls := [{ function := { name := "get_development_plan",
                                            arguments := emptyArguments } }] }] =
      (some "Свободные слоты найдены", []) :=
  C4_single_followup_call (fun _ _ => .ok "\x7b\x7d") [] "Покажи слоты"
    { role := "assistant", content := "",
      tool_calls := [{ function := { name := "get_available_slots",
                                     arguments := emptyArguments } }] }
    { role := "assistant", content := "Свободные слоты найдены",
      tool_calls := [{ function := { name := "get_development_plan",
                                     arguments := emptyArguments } }] }
    [] (by simp)

/-- C5: a `tools/call` request whose name is not a registered tool name gets
an error response (`handle_request` catches the `ValueError` of
`_handle_call_tool` and returns error `-32603`); the request loop is not
terminated, and every other request in the same run — before or after —
is answered exactly as it would be on its own. -/
theorem C5_unknown_tool_error :
    ∀ (id : RpcId) (name : String) (args : ToolArguments) (uri : Option String)
      (pre post : List (Except String RpcRequest)),
      name ∉ serverTools.map Tool.name →
      handle_request
          { method := some "tools/call", id := id, name := some name,
            arguments := args, uri := uri } =
        create_error_response id (-32603) ("Internal error: Unknown tool: " ++ name) ∧
      server_main_loop (pre ++
          .ok { method := some "tools/call", id := id,
                name := some name, arguments := args, uri := uri } :: post) =
        server_main_loop pre ++
          create_error_response id (-32603) ("Internal error: Unknown tool: " ++ name) ::
            server_main_loop post := by
  intro id name args uri pre post h
  simp only [serverTools, Tool.dict, List.map_cons, List.map_nil, List.mem_cons,
    List.mem_singleton, List.not_mem_nil, or_false, not_or] at h
  have hct : handle_call_tool (some name) args =
      .error ("Unknown tool: " ++ name) := by
    unfold handle_call_tool
    split <;> simp_all [optionStr]
  have hreq :
      handle_request
          { method := some "tools/call", id := id,
            name := some name, arguments := args, uri := uri } =
        create_error_response id (-32603) ("Internal error: Unknown tool: " ++ name) := by
    unfold handle_request
    simp only [hct]
    rw [← String.append_assoc]
    rfl
  refine ⟨hreq, ?_⟩
  simp only [server_main_loop, List.map_append, List.map_cons]
  have hline :
      process_line
          (.ok { method := some "tools/call", id := id,
                 name := some name, arguments := args, uri := uri }) =
        create_error_response id (-32603) ("Internal error: Unknown tool: " ++ name) :=
    hreq
  rw [hline]

/-- C5 witness: the unknown tool name `nonexistent_tool` with id 7, preceded
and followed by well-formed requests. -/
theorem C5_unknown_tool_error_witness :
    handle_request
        { method := some "tools/call", id := .num 7,
          name := some "nonexistent_tool", arguments := emptyArguments, uri := none } =
      create_error_response (.num 7) (-32603)
        ("Internal error: Unknown tool: " ++ "nonexistent_tool") ∧
    server_main_loop
        ([.ok { method := some "tools/list", id := .num 6,
                name := none, arguments := emptyArguments, uri := none }] ++
          .ok { method := some "tools/call", id := .num 7,
                name := some "nonexistent_tool", arguments := emptyArguments,
                uri := none } ::
            [.ok { method := some "tools/list", id := .num 8,
                   name := none, arguments := emptyArguments, uri := none }]) =
      server_main_loop
          [.ok { method := some "tools/list", id := .num 6,
                 name := none, arguments := emptyArguments, uri := none }] ++
        create_error_response (.num 7) (-32603)
            ("Internal error: Unknown tool: " ++ "nonexistent_tool") ::
          server_main_loop
            [.ok { method := some "tools/list", id := .num 8,
                   name := none, arguments := emptyArguments, uri := none }] :=
  C5_unknown_tool_error (.num 7) "nonexistent_tool" emptyArguments none
    [.ok { method := some "tools/list", id := .num 6,
           name := none, arguments := emptyArguments, uri := none }]
    [.ok { method := some "tools/list", id := .num 8,
           name := none, arguments := emptyArguments, uri := none }]
    (by decide)

/-- C6: the stdin loop of `mcp_server.main` answers a line that is not valid
JSON with an error envelope whose id is null and whose code is `-32700`, and
keeps reading: the loop output contains one response per input line, with
all other lines answered exactly as on their own. -/
theorem C6_parse_error_recovery :
    ∀ (pre post : List (Except String RpcRequest)) (e : String),
      server_main_loop (pre ++ .error e :: post) =
        server_main_loop pre ++
          create_error_response .null (-32700) ("Parse error: " ++ e) ::
            server_main_loop post ∧
      (create_error_response .null (-32700) ("Parse error: " ++ e)).id = .null ∧
      (create_error_response .null (-32700) ("Parse error: " ++ e)).error =
        some { code := -32700, message := "Parse error: " ++ e } ∧
      (server_main_loop (pre ++ .error e :: post)).length =
        pre.length + post.length + 1 := by
  intro pre post e
  refine ⟨?_, rfl, rfl, ?_⟩
  · simp only [server_main_loop, List.map_append, List.map_cons]
    rfl
  · simp only [server_main_loop, List.length_map, List.length_append,
      List.length_cons]
    omega

/-- C7 counterexample: a 150-minute booking at 10:00 on 2024-01-15 — whose
real interval `[10:00, 12:30)` is contained in none of that date's available
ranges (`10:00-12:00`, `16:00-18:00`) — is nonetheless accepted by
`book_meeting`, because the code computes the requested end as
`start + (duration // 60) * 100` on 4-digit `HHMM` encodings. -/
theorem C7_interval_counterexample :
    (book_meeting AVAILABLE_SLOTS "2024-01-15" "10:00" "Обсуждение" 150).success = true ∧
    ((AVAILABLE_SLOTS.lookup "2024-01-15").getD []).all
      (fun slot => !(intervalWithinRange slot "10:00" 150)) = true := by
  exact ⟨by decide, by decide⟩

/-- C7 (amended): for every booking request whose requested interval — in the
code's encoding, start `= int(time.replace(":", ""))` and end
`= start + (duration // 60) * 100` — is contained in no available range of
that date, `book_meeting` returns the failure result whose
`available_alternatives` is exactly that date's list of available ranges;
and the `schedule_meeting` tool is exactly `book_meeting` applied to its
arguments (`duration` defaulting to 60). -/
theorem C7_booking_rejection :
    (∀ (slots : List (String × List String)) (date time title : String) (duration : Nat),
      (∀ slot ∈ (slots.lookup date).getD [],
        slotContains slot (timeToInt time) (timeToInt time + duration / 60 * 100) = false) →
      book_meeting slots date time title duration =
        .rejected ("Временной слот " ++ date ++ " в " ++ time ++ " недоступен")
          ((slots.lookup date).getD [])) ∧
    (∀ a : ToolArguments, tool_schedule_meeting a =
      .scheduleMeeting (book_meeting AVAILABLE_SLOTS (a.date.getD "") (a.time.getD "")
        (a.title.getD "") (a.duration.getD 60))) := by
  refine ⟨?_, fun a => rfl⟩
  intro slots date time title duration h
  have hc : check_time_slot_availability slots date time duration = false := by
    unfold check_time_slot_availability
    cases hl : slots.lookup date with
    | none => rfl
    | some l =>
      simp only [List.any_eq_false]
      intro slot hs
      have := h slot (by rw [hl]; exact hs)
      simp [this]
  unfold book_meeting
  rw [hc]
  simp

/-- C7 witness: the rejection clause at the concrete slot 13:00 on
2024-01-15 (inside no available range even in real-interval terms). -/
theorem C7_booking_rejection_witness :
    book_meeting AVAILABLE_SLOTS "2024-01-15" "13:00" "Синк" 60 =
      .rejected ("Временной слот " ++ "2024-01-15" ++ " в " ++ "13:00" ++ " недоступен")
        ((AVAILABLE_SLOTS.lookup "2024-01-15").getD []) :=
  C7_booking_rejection.1 AVAILABLE_SLOTS "2024-01-15" "13:00" "Синк" 60 (by decide)

/-- C8: `tools/list` returns one descriptor per registered tool, in
registration order: for every registry with unique names the listing has the
registry's length and name order, and the educational server's concrete
listing is its five tools in `__init__` source order. -/
theorem C8_tools_list_order :
    (∀ tools : List Tool, (tools.map Tool.name).Nodup →
      (handle_list_tools tools).length = tools.length ∧
      (handle_list_tools tools).map ToolDict.name = tools.map Tool.name) ∧
    handle_request
        { method := some "tools/list", id := .num 1, name := none,
          arguments := emptyArguments, uri := none } =
      { id := .num 1, result := some (.toolsList (handle_list_tools serverTools)),
        error := none } ∧
    (handle_list_tools serverTools).map ToolDict.name =
      ["list_tools", "get_available_slots", "schedule_meeting",
       "get_development_plan", "search_regulations"] := by
  refine ⟨?_, rfl, by decide⟩
  intro tools _
  constructor
  · simp [handle_list_tools]
  · simp [handle_list_tools, List.map_map]
    intro t _
    rfl

/-- C8 witness: the general clause at the educational server's registry. -/
theorem C8_tools_list_order_witness :
    (handle_list_tools serverTools).length = serverTools.length ∧
    (handle_list_tools serverTools).map ToolDict.name = serverTools.map Tool.name :=
  C8_tools_list_order.1 serverTools (by decide)

/-- C9: `book_meeting` modifies no state: running any sequence of booking
requests leaves `AVAILABLE_SLOTS` and `MOCK_CALENDAR` unchanged and answers
every request against the same calendar, so the same available slot books
successfully arbitrarily many times. -/
theorem C9_book_meeting_pure :
    (∀ (st : CalendarState) (rs : List BookingRequest),
      runBookings st rs =
        (rs.map (fun r => book_meeting st.available_slots r.date r.time r.title r.duration),
         st)) ∧
    (∀ n : Nat,
      (runBookings initialCalendarState
          (List.replicate n { date := "2024-01-17", time := "10:00",
                              title := "Синк", duration := 60 })).1 =
        List.replicate n (book_meeting AVAILABLE_SLOTS "2024-01-17" "10:00" "Синк" 60) ∧
      (book_meeting AVAILABLE_SLOTS "2024-01-17" "10:00" "Синк" 60).success = true) := by
  have main : ∀ (st : CalendarState) (rs : List BookingRequest),
      runBookings st rs =
        (rs.map (fun r => book_meeting st.available_slots r.date r.time r.title r.duration),
         st) := by
    intro st rs
    induction rs with
    | nil => rfl
    | cons r rs ih => simp [runBookings, book_meeting_step, ih]
  refine ⟨main, fun n => ⟨?_, by decide⟩⟩
  rw [main, List.map_replicate]
  rfl

/-- C10: starting from the empty per-user history, any sequence of
`add_to_conversation` calls leaves exactly the most recent (at most 20)
appended messages stored, in append order — older entries are dropped from
storage itself. -/
theorem C10_conversation_bound :
    ∀ ms : List ChatMessage,
      List.foldl add_to_conversation [] ms = lastN 20 ms ∧
      (List.foldl add_to_conversation [] ms).length ≤ 20 := by
  have main : ∀ ms : List ChatMessage,
      List.foldl add_to_conversation [] ms = lastN 20 ms := by
    intro ms
    induction ms using List.reverseRecOn with
    | nil => rfl
    | append_singleton ms m ih =>
      rw [List.foldl_append, List.foldl_cons, List.foldl_nil, ih,
        add_to_conversation_lastN]
  intro ms
  refine ⟨main ms, ?_⟩
  rw [main ms]
  unfold lastN
  rw [List.length_drop]
  omega
